import Mathlib

/-!
Shallow embedding of the conversation state synchronization engine of the
airline customer-service UI (src/ui/app/page.tsx, src/ui/lib/api.ts, and the
customer-login component).  React state updates are modelled as explicit
state passing over an `AppState` record; each `Date.now()` / `Math.random()`
call site is an explicit parameter collected in a `Clock` record; `fetch`
outcomes are an explicit `FetchResult` value.  JS truthiness on nullable
strings (`x || ""`, `x || null`, `!x`) is modelled by dedicated helpers;
JS `undefined` stored in a state slice is modelled by `Option`.
-/

namespace AirlineUI

/-! ## Data model.  `lib/types` is not part of the sources; the record fields
below are the ones the embedded code actually reads. -/

structure Customer where
  name : String
  account_number : String
  email : String
deriving Repr, DecidableEq

structure Booking where
  confirmation_number : String
deriving Repr, DecidableEq

/-- The customer record returned by `GET /customer/{accountNumber}`:
nested `customer.{name,account_number,email}` and `bookings[]`. -/
structure CustomerInfo where
  customer : Customer
  bookings : List Booking
deriving Repr, DecidableEq

structure Message where
  id : String
  content : String
  role : String
  agent : Option String := none
  timestamp : Nat
deriving Repr, DecidableEq

/-- An agent event; `timestamp` is optional on arrival and filled in by the
client (the `extra` field stands for the fields the engine spreads through
unchanged with `...e`). -/
structure AgentEvent where
  type : String
  timestamp : Option Nat
  extra : String := ""
deriving Repr, DecidableEq

structure Agent where
  name : String
  input_guardrails : List String
deriving Repr, DecidableEq

structure GuardrailCheck where
  name : String
  passed : Bool
deriving Repr, DecidableEq

/-- Shared context: a flat string-keyed mapping (`Record<string, any>`). -/
abbrev Ctx := List (String × String)

/-- A message as carried inside a chat response body (`m.content`, `m.agent`
are the fields the client reads). -/
structure RespMessage where
  content : String
  agent : Option String
deriving Repr, DecidableEq

/-- Body of a successful `POST /chat` response.  Every field may be absent
(JS `undefined`), modelled by `Option`. -/
structure ChatResponse where
  conversation_id : Option String := none
  current_agent : Option String := none
  context : Option Ctx := none
  events : Option (List AgentEvent) := none
  agents : Option (List Agent) := none
  guardrails : Option (List GuardrailCheck) := none
  messages : Option (List RespMessage) := none
deriving Repr, DecidableEq

/-! ## JS truthiness helpers for nullable strings.  In JS, `""`, `null` and
`undefined` are falsy; a non-empty string is truthy; arrays and objects are
always truthy (so truthiness of an optional array/object is `isSome`). -/

/-- Models `x || ""` for a possibly-absent string `x`. -/
def jsOrEmpty : Option String → String
  | some s => if s = "" then "" else s
  | none => ""

/-- Models `x || null` for a possibly-absent string `x`. -/
def jsOrNull : Option String → Option String
  | some s => if s = "" then none else some s
  | none => none

/-- Models the test `!x` on a nullable string `x`. -/
def jsFalsy : Option String → Bool
  | some s => s == ""
  | none => true

/-! ## Nondeterministic inputs.  Each `Date.now()` / `new Date()` call site of
the handlers gets its own reading; `Math.random().toString()` for the i-th
response message of a batch is `rand i`.  (The per-event `Date.now()` inside
the stamping `map` is abstracted to the single receipt time `nowStamp`.) -/

structure Clock where
  nowUser : Nat
  nowFail : Nat
  nowStamp : Nat
  nowRespMsg : Nat
  nowWelcome : Nat
  rand : Nat → String

/-! ## Transport client: src/ui/lib/api.ts -/

/-- Outcome of a `fetch`: a success body, a non-ok HTTP status
(`!res.ok`), or a thrown network-level error. -/
inductive FetchResult (α : Type) where
  | ok (body : α)
  | httpError (status : Nat)
  | networkError
deriving Repr, DecidableEq

/-- The JSON body built by `callChatAPI`: `conversation_id` and `message`
always; `account_number` only when the argument is truthy
(`if (accountNumber) body.account_number = accountNumber`). -/
structure ChatRequestBody where
  conversation_id : String
  message : String
  account_number : Option String
deriving Repr, DecidableEq

def chatRequestBody (message conversationId : String)
    (accountNumber : Option String) : ChatRequestBody :=
  { conversation_id := conversationId,
    message := message,
    account_number :=
      match accountNumber with
      | some a => if a = "" then none else some a
      | none => none }

/-- Result of one `callChatAPI` invocation: the value returned to the caller
plus whether `console.error` was invoked on the failure path. -/
structure CallResult (α : Type) where
  result : Option α
  loggedError : Bool
deriving Repr, DecidableEq

/-- `callChatAPI` (api.ts lines 2-25): returns the parsed body on a success
status; on `!res.ok` it throws, and the surrounding `try` logs the error and
returns `null`; a network failure takes the same path.  Total: it never
propagates an exception to the caller. -/
def callChatAPI (_message _conversationId : String)
    (_accountNumber : Option String) (r : FetchResult ChatResponse) :
    CallResult ChatResponse :=
  match r with
  | .ok body => { result := some body, loggedError := false }
  | .httpError _ => { result := none, loggedError := true }
  | .networkError => { result := none, loggedError := true }

/-- `getCustomerInfo` (api.ts lines 28-37): parsed body on success, `null` on
every failure — the status code is not inspected, so a 404 and any other
failure produce the same result. -/
def getCustomerInfo (r : FetchResult CustomerInfo) : Option CustomerInfo :=
  match r with
  | .ok body => some body
  | .httpError _ => none
  | .networkError => none

/-- `getBookingInfo` (api.ts lines 40-49): same null-on-failure contract. -/
def getBookingInfo (r : FetchResult Ctx) : Option Ctx :=
  match r with
  | .ok body => some body
  | .httpError _ => none
  | .networkError => none

/-! ## Customer login component (CustomerLogin.handleLogin) -/

inductive LoginOutcome where
  | emptyInput
  | notFound
  | lookupFailed
  | netFailure
  | loggedIn (accountNumber : String) (info : CustomerInfo)
deriving Repr, DecidableEq

/-- The user-facing error string set for each failing outcome. -/
def loginErrorText : LoginOutcome → String
  | .emptyInput => "Please enter your account number"
  | .notFound => "Account number not found. Please check and try again."
  | .lookupFailed => "Failed to load customer information. Please try again."
  | .netFailure => "Network error. Please check your connection and try again."
  | .loggedIn _ _ => ""

/-- JS `String.prototype.trim`: strip leading and trailing whitespace. -/
def jsTrim (s : String) : String :=
  String.mk
    (((s.data.dropWhile Char.isWhitespace).reverse.dropWhile
        Char.isWhitespace).reverse)

/-- `CustomerLogin.handleLogin`: blank input fails locally; otherwise it
fetches `/customer/{accountNumber}` directly and distinguishes HTTP 404 from
other non-ok statuses and from network errors; on success it invokes
`onLogin(accountNumber, customerData)`. -/
def customerLoginHandle (accountNumber : String)
    (r : FetchResult CustomerInfo) : LoginOutcome :=
  if jsTrim accountNumber = "" then .emptyInput
  else
    match r with
    | .ok info => .loggedIn accountNumber info
    | .httpError status => if status = 404 then .notFound else .lookupFailed
    | .networkError => .netFailure

/-! ## Session state (the `useState` slices of `Home`) -/

/-- The client-side session state.  `currentAgent` and `context` are `Option`
because the bootstrap path stores the response fields verbatim, so a response
that omits them stores JS `undefined` (modelled `none`); their initial values
are `some ""` and `some []`. -/
structure AppState where
  messages : List Message
  events : List AgentEvent
  agents : List Agent
  currentAgent : Option String
  guardrails : List GuardrailCheck
  context : Option Ctx
  conversationId : Option String
  isLoading : Bool
  isLoggedIn : Bool
  accountNumber : String
  customerInfo : Option CustomerInfo
deriving Repr, DecidableEq

def initialState : AppState :=
  { messages := [], events := [], agents := [], currentAgent := some "",
    guardrails := [], context := some [], conversationId := none,
    isLoading := false, isLoggedIn := false, accountNumber := "",
    customerInfo := none }

/-! ## Message constructors (one per synthesis site in page.tsx) -/

/-- Optimistic user message (page.tsx lines 72-77): bare clock-string id. -/
def mkUserMsg (clk : Clock) (content : String) : Message :=
  { id := toString clk.nowUser, content := content, role := "user",
    agent := none, timestamp := clk.nowUser }

def failMsgContent : String :=
  "I\x27m having trouble connecting right now. Please try again in a moment."

/-- Fallback system message on a `null` transport result (lines 86-92). -/
def mkFailMsg (clk : Clock) : Message :=
  { id := toString clk.nowFail, content := failMsgContent,
    role := "assistant", agent := some "System", timestamp := clk.nowFail }

/-- Assistant message derived from the i-th response message (lines 112-118
and 48-54): id is the clock string concatenated with a random suffix. -/
def mkRespMsg (clk : Clock) (i : Nat) (m : RespMessage) : Message :=
  { id := toString clk.nowRespMsg ++ clk.rand i, content := m.content,
    role := "assistant", agent := m.agent, timestamp := clk.nowRespMsg }

def welcomeContent (name : String) : String :=
  "Welcome back, " ++ name ++
    "! I can help you with your bookings, flight status, seat changes, and more. How can I assist you today?"

/-- Synthesized welcome message (lines 59-65): bare clock-string id. -/
def welcomeMessage (clk : Clock) (custInfo : CustomerInfo) : Message :=
  { id := toString clk.nowWelcome,
    content := welcomeContent custInfo.customer.name,
    role := "assistant", agent := some "Triage Agent",
    timestamp := clk.nowWelcome }

/-- `{...e, timestamp: e.timestamp ?? now}`: keep an existing timestamp,
stamp a missing one with the receipt time. -/
def stampEvent (now : Nat) (e : AgentEvent) : AgentEvent :=
  { e with timestamp := some (e.timestamp.getD now) }

/-! ## Login/session bootstrap (`Home.handleLogin`, page.tsx lines 26-68) -/

/-- State after `handleLogin` has run up to (and including) the
`Array.isArray(data.messages)` branch, i.e. just before the final
`setMessages([welcomeMessage])`.  On `null` bootstrap data only the
account/customer/logged-in slices change. -/
def loginPreWelcome (clk : Clock) (accNumber : String)
    (custInfo : CustomerInfo) (data : Option ChatResponse) (s : AppState) :
    AppState :=
  let s1 := { s with accountNumber := accNumber,
                     customerInfo := some custInfo, isLoggedIn := true }
  match data with
  | none => s1
  | some d =>
    let s2 := { s1 with
      conversationId := d.conversation_id,
      currentAgent := d.current_agent,
      context := d.context,
      events := (d.events.getD []).map (stampEvent clk.nowStamp),
      agents := d.agents.getD [],
      guardrails := d.guardrails.getD [] }
    match d.messages with
    | some ms => { s2 with messages := ms.mapIdx (fun i m => mkRespMsg clk i m) }
    | none => s2

/-- `Home.handleLogin`: the pre-welcome state, then — when bootstrap data was
returned — the transcript is unconditionally overwritten with the single
synthesized welcome message. -/
def handleLogin (clk : Clock) (accNumber : String) (custInfo : CustomerInfo)
    (data : Option ChatResponse) (s : AppState) : AppState :=
  let s3 := loginPreWelcome clk accNumber custInfo data s
  match data with
  | none => s3
  | some _ => { s3 with messages := [welcomeMessage clk custInfo] }

/-! ## Message dispatch loop (`Home.handleSendMessage`, lines 71-123) -/

/-- Lines 72-80: append the optimistic user message and enter pending
state, before the transport call. -/
def appendUserMsg (clk : Clock) (content : String) (s : AppState) : AppState :=
  { s with messages := s.messages ++ [mkUserMsg clk content],
           isLoading := true }

/-- Lines 84-122: fold the transport result into the state.  `null` data
appends one system message and clears pending; success data updates each
slice per its own presence rule. -/
def processSendResult (clk : Clock) (data : Option ChatResponse)
    (s : AppState) : AppState :=
  match data with
  | none =>
    { s with messages := s.messages ++ [mkFailMsg clk], isLoading := false }
  | some d =>
    let s1 := { s with conversationId :=
      (if jsFalsy s.conversationId then jsOrNull d.conversation_id
       else s.conversationId) }
    let s2 := { s1 with currentAgent := some (jsOrEmpty d.current_agent),
                        context := some (d.context.getD []) }
    let s3 := match d.events with
      | some es => { s2 with events := s2.events ++ es.map (stampEvent clk.nowStamp) }
      | none => s2
    let s4 := match d.agents with
      | some a => { s3 with agents := a }
      | none => s3
    let s5 := match d.guardrails with
      | some g => { s4 with guardrails := g }
      | none => s4
    let s6 := match d.messages with
      | some ms => { s5 with messages := s5.messages ++ ms.mapIdx (fun i m => mkRespMsg clk i m) }
      | none => s5
    { s6 with isLoading := false }

/-- `Home.handleSendMessage`: optimistic append, transport call (whose result
is the `data` argument), then reconciliation. -/
def handleSendMessage (clk : Clock) (content : String)
    (data : Option ChatResponse) (s : AppState) : AppState :=
  processSendResult clk data (appendUserMsg clk content s)

/-! ## Sequences of dispatched turns (for latest-write-wins properties) -/

/-- Process a list of (user content, successful response) turns in order. -/
def processTurns (clk : Clock) (turns : List (String × ChatResponse))
    (s : AppState) : AppState :=
  turns.foldl (fun st t => handleSendMessage clk t.1 (some t.2) st) s

/-- Modelled from the spec: "the most recent response that included them" —
the field value carried by the last turn whose response has the field
present, if any. -/
def lastCarried {α : Type} (f : ChatResponse → Option α)
    (turns : List (String × ChatResponse)) : Option α :=
  turns.reverse.findSome? (fun t => f t.2)

/-! ## Concrete example inputs -/

/-- A concrete clock in which every reading falls in the same millisecond. -/
def cClock : Clock :=
  { nowUser := 1000, nowFail := 1000, nowStamp := 1000, nowRespMsg := 1000,
    nowWelcome := 1000, rand := fun _ => "0.123" }

def infoEx : CustomerInfo :=
  { customer := { name := "Ava Chen", account_number := "CUST001",
                  email := "ava@example.com" },
    bookings := [] }

/-- A concrete fully-populated bootstrap response. -/
def dEx : ChatResponse :=
  { conversation_id := some "conv-1",
    current_agent := some "Triage Agent",
    context := some [("account_number", "CUST001")],
    events := some [{ type := "handoff", timestamp := none }],
    agents := some [{ name := "Triage Agent", input_guardrails := [] }],
    guardrails := some [{ name := "Relevance", passed := true }],
    messages := some [{ content := "Hi", agent := some "Triage Agent" }] }

/-- A response in which every field is absent. -/
def emptyResp : ChatResponse := {}

/-- A state mid-conversation with a known current agent and context. -/
def midState : AppState :=
  { initialState with currentAgent := some "Triage Agent",
                      context := some [("seat_number", "12A")],
                      conversationId := some "conv-1" }

/-! ## Helper lemmas: per-slice effect of a successful dispatched response -/

lemma sendSome_currentAgent (clk : Clock) (content : String)
    (d : ChatResponse) (s : AppState) :
    (handleSendMessage clk content (some d) s).currentAgent
      = some (jsOrEmpty d.current_agent) := by
  cases he : d.events <;> cases ha : d.agents <;> cases hg : d.guardrails <;>
    cases hm : d.messages <;>
    simp [handleSendMessage, processSendResult, appendUserMsg, he, ha, hg, hm]

lemma sendSome_context (clk : Clock) (content : String)
    (d : ChatResponse) (s : AppState) :
    (handleSendMessage clk content (some d) s).context
      = some (d.context.getD []) := by
  cases he : d.events <;> cases ha : d.agents <;> cases hg : d.guardrails <;>
    cases hm : d.messages <;>
    simp [handleSendMessage, processSendResult, appendUserMsg, he, ha, hg, hm]

lemma sendSome_agents (clk : Clock) (content : String)
    (d : ChatResponse) (s : AppState) :
    (handleSendMessage clk content (some d) s).agents
      = d.agents.getD s.agents := by
  cases he : d.events <;> cases ha : d.agents <;> cases hg : d.guardrails <;>
    cases hm : d.messages <;>
    simp [handleSendMessage, processSendResult, appendUserMsg, he, ha, hg, hm]

lemma sendSome_guardrails (clk : Clock) (content : String)
    (d : ChatResponse) (s : AppState) :
    (handleSendMessage clk content (some d) s).guardrails
      = d.guardrails.getD s.guardrails := by
  cases he : d.events <;> cases ha : d.agents <;> cases hg : d.guardrails <;>
    cases hm : d.messages <;>
    simp [handleSendMessage, processSendResult, appendUserMsg, he, ha, hg, hm]

lemma sendSome_events (clk : Clock) (content : String)
    (d : ChatResponse) (s : AppState) :
    (handleSendMessage clk content (some d) s).events
      = s.events ++ (d.events.getD []).map (stampEvent clk.nowStamp) := by
  cases he : d.events <;> cases ha : d.agents <;> cases hg : d.guardrails <;>
    cases hm : d.messages <;>
    simp [handleSendMessage, processSendResult, appendUserMsg, he, ha, hg, hm]

/-! ## Helper lemmas: folds over turn sequences -/

lemma processTurns_agents (clk : Clock) (turns : List (String × ChatResponse))
    (s : AppState) :
    (processTurns clk turns s).agents
      = turns.foldl (fun a t => (t.2.agents).getD a) s.agents := by
  induction turns generalizing s with
  | nil => rfl
  | cons t ts ih =>
      calc (processTurns clk (t :: ts) s).agents
          = (processTurns clk ts (handleSendMessage clk t.1 (some t.2) s)).agents := rfl
        _ = ts.foldl (fun a u => (u.2.agents).getD a)
              ((handleSendMessage clk t.1 (some t.2) s).agents) := ih _
        _ = ts.foldl (fun a u => (u.2.agents).getD a)
              ((t.2.agents).getD s.agents) := by rw [sendSome_agents]
        _ = (t :: ts).foldl (fun a u => (u.2.agents).getD a) s.agents := rfl

lemma processTurns_guardrails (clk : Clock)
    (turns : List (String × ChatResponse)) (s : AppState) :
    (processTurns clk turns s).guardrails
      = turns.foldl (fun g t => (t.2.guardrails).getD g) s.guardrails := by
  induction turns generalizing s with
  | nil => rfl
  | cons t ts ih =>
      calc (processTurns clk (t :: ts) s).guardrails
          = (processTurns clk ts (handleSendMessage clk t.1 (some t.2) s)).guardrails := rfl
        _ = ts.foldl (fun g u => (u.2.guardrails).getD g)
              ((handleSendMessage clk t.1 (some t.2) s).guardrails) := ih _
        _ = ts.foldl (fun g u => (u.2.guardrails).getD g)
              ((t.2.guardrails).getD s.guardrails) := by rw [sendSome_guardrails]
        _ = (t :: ts).foldl (fun g u => (u.2.guardrails).getD g) s.guardrails := rfl

lemma findSome?_append_singleton {α τ : Type} (f : τ → Option α)
    (xs : List τ) (t : τ) (init : α) :
    ((xs ++ [t]).findSome? f).getD init
      = (xs.findSome? f).getD ((f t).getD init) := by
  induction xs with
  | nil => cases hft : f t <;> simp [List.findSome?, hft]
  | cons x xs ih => cases hfx : f x <;> simp [List.findSome?, hfx, ih]

lemma foldl_getD_eq_lastSome {α τ : Type} (f : τ → Option α) (l : List τ)
    (init : α) :
    l.foldl (fun a t => (f t).getD a) init
      = (l.reverse.findSome? f).getD init := by
  induction l generalizing init with
  | nil => rfl
  | cons t ts ih =>
      rw [List.foldl_cons, ih, List.reverse_cons, findSome?_append_singleton]

/-! ## Theorems -/

/-- C1: For every send whose transport call returns null, the operation
appends exactly one synthesized assistant Message with the fixed apologetic
content and agent label "System" to the transcript (after the optimistic
user echo), leaves every other state slice (conversation id, current agent,
context, events, roster, guardrails) unchanged, and clears the pending
flag. -/
theorem send_null_appends_one_system_message (clk : Clock) (content : String)
    (s : AppState) :
    (handleSendMessage clk content none s).messages
      = s.messages ++ [mkUserMsg clk content, mkFailMsg clk] ∧
    (mkFailMsg clk).role = "assistant" ∧
    (mkFailMsg clk).agent = some "System" ∧
    (mkFailMsg clk).content
      = "I\x27m having trouble connecting right now. Please try again in a moment." ∧
    (handleSendMessage clk content none s).conversationId = s.conversationId ∧
    (handleSendMessage clk content none s).currentAgent = s.currentAgent ∧
    (handleSendMessage clk content none s).context = s.context ∧
    (handleSendMessage clk content none s).events = s.events ∧
    (handleSendMessage clk content none s).agents = s.agents ∧
    (handleSendMessage clk content none s).guardrails = s.guardrails ∧
    (handleSendMessage clk content none s).isLoading = false := by
  refine ⟨?_, rfl, rfl, rfl, rfl, rfl, rfl, rfl, rfl, rfl, rfl⟩
  simp [handleSendMessage, processSendResult, appendUserMsg]

/-- C9: `callChatAPI` returns null — and never throws to its caller — on any
non-success HTTP status and on a network-level failure, logging the failure;
on a success status it returns the parsed response body. -/
theorem callChatAPI_failure_contract (msg cid : String) (acc : Option String)
    (body : ChatResponse) (status : Nat) :
    callChatAPI msg cid acc (.ok body)
      = { result := some body, loggedError := false } ∧
    callChatAPI msg cid acc (.httpError status)
      = { result := none, loggedError := true } ∧
    callChatAPI msg cid acc .networkError
      = { result := none, loggedError := true } := by
  exact ⟨rfl, rfl, rfl⟩

/-- C10: the chat request body contains `account_number` iff the supplied
account number argument is truthy; an empty-string account number omits the
field, making the body equal to one built with no account number at all. -/
theorem account_number_field_iff_truthy (msg cid : String) (a : String)
    (ha : a ≠ "") :
    (chatRequestBody msg cid (some a)).account_number = some a ∧
    (chatRequestBody msg cid (some "")).account_number = none ∧
    chatRequestBody msg cid (some "") = chatRequestBody msg cid none := by
  refine ⟨?_, rfl, rfl⟩
  simp [chatRequestBody, ha]

/-- Witness for C10 at a concrete non-empty account number. -/
theorem account_number_field_iff_truthy_witness :
    (chatRequestBody "hi" "c1" (some "CUST001")).account_number
        = some "CUST001" ∧
    (chatRequestBody "hi" "c1" (some "")).account_number = none ∧
    chatRequestBody "hi" "c1" (some "") = chatRequestBody "hi" "c1" none :=
  account_number_field_iff_truthy "hi" "c1" "CUST001" (by decide)

/-- C2: when the customer lookup succeeds and the bootstrap call returns
data, the transcript afterwards is exactly one synthesized welcome message
whose content contains the customer's name (the response-carried messages
having been transiently set and then overwritten), and the conversation id
is the (non-empty) id from the response. -/
theorem login_success_single_welcome (clk : Clock) (acc : String)
    (fr : FetchResult CustomerInfo) (info : CustomerInfo) (d : ChatResponse)
    (ms : List RespMessage) (cid : String)
    (_hlogin : customerLoginHandle acc fr = .loggedIn acc info)
    (hcid : d.conversation_id = some cid) (hne : cid ≠ "")
    (hms : d.messages = some ms) :
    (handleLogin clk acc info (some d) initialState).messages
      = [welcomeMessage clk info] ∧
    (∃ pre post,
      (welcomeMessage clk info).content = pre ++ info.customer.name ++ post) ∧
    (handleLogin clk acc info (some d) initialState).conversationId
      = some cid ∧
    cid ≠ "" ∧
    (loginPreWelcome clk acc info (some d) initialState).messages
      = ms.mapIdx (fun i m => mkRespMsg clk i m) := by
  refine ⟨rfl,
    ⟨"Welcome back, ",
     "! I can help you with your bookings, flight status, seat changes, and more. How can I assist you today?",
     rfl⟩, ?_, hne, ?_⟩
  · simp [handleLogin, loginPreWelcome, hms, hcid]
  · simp [loginPreWelcome, hms]

/-- Witness for C2 at a concrete resolved customer and bootstrap response. -/
theorem login_success_single_welcome_witness :
    (handleLogin cClock "CUST001" infoEx (some dEx) initialState).messages
      = [welcomeMessage cClock infoEx] ∧
    (∃ pre post,
      (welcomeMessage cClock infoEx).content
        = pre ++ infoEx.customer.name ++ post) ∧
    (handleLogin cClock "CUST001" infoEx (some dEx) initialState).conversationId
      = some "conv-1" ∧
    "conv-1" ≠ "" ∧
    (loginPreWelcome cClock "CUST001" infoEx (some dEx) initialState).messages
      = [RespMessage.mk "Hi" (some "Triage Agent")].mapIdx
          (fun i m => mkRespMsg cClock i m) :=
  login_success_single_welcome cClock "CUST001" (.ok infoEx) infoEx dEx
    [RespMessage.mk "Hi" (some "Triage Agent")] "conv-1"
    (by decide) rfl (by decide) rfl

/-- C3 counterexample: a successful dispatched response that omits
`current_agent` clears the current agent to the empty string instead of
leaving it unchanged (`setCurrentAgent(data.current_agent || "")`). -/
theorem send_omitted_agent_clears_counterexample :
    midState.currentAgent = some "Triage Agent" ∧
    (handleSendMessage cClock "hi" (some emptyResp) midState).currentAgent
      = some "" ∧
    (handleSendMessage cClock "hi" (some emptyResp) midState).currentAgent
      ≠ midState.currentAgent := by
  refine ⟨rfl, rfl, ?_⟩
  decide

/-- C3 amended: in the message dispatch path the current agent is replaced by
the response's value when one is supplied, and is reset to the empty string
when the response omits it (or supplies an empty one); it is never preserved
from the previous state. -/
theorem send_current_agent_reset_when_absent (clk : Clock) (content : String)
    (d : ChatResponse) (s : AppState) :
    (handleSendMessage clk content (some d) s).currentAgent
      = some (d.current_agent.getD "") := by
  rw [sendSome_currentAgent]
  cases d.current_agent with
  | none => rfl
  | some a =>
      by_cases ha : a = "" <;> simp [jsOrEmpty, ha]

/-- C4: over any sequence of successfully dispatched turns, the roster and
the guardrail list equal the values carried by the most recent response that
included them, and remain the prior values when no response included them. -/
theorem roster_guardrails_latest_write (clk : Clock)
    (turns : List (String × ChatResponse)) (s : AppState) :
    (processTurns clk turns s).agents
      = (lastCarried (fun d => d.agents) turns).getD s.agents ∧
    (processTurns clk turns s).guardrails
      = (lastCarried (fun d => d.guardrails) turns).getD s.guardrails := by
  constructor
  · rw [processTurns_agents]
    exact foldl_getD_eq_lastSome (fun t => t.2.agents) turns s.agents
  · rw [processTurns_guardrails]
    exact foldl_getD_eq_lastSome (fun t => t.2.guardrails) turns s.guardrails

/-- C5 counterexample: a bootstrap response that omits `context` stores the
absent value verbatim (`setContext(data.context)` with no default), leaving
the context slice undefined rather than the empty mapping. -/
theorem login_context_counterexample :
    initialState.context = some [] ∧
    (handleLogin cClock "CUST001" infoEx (some emptyResp) initialState).context
      = none ∧
    (handleLogin cClock "CUST001" infoEx (some emptyResp) initialState).context
      ≠ some ([] : Ctx) := by
  refine ⟨rfl, rfl, ?_⟩
  decide

/-- C5 amended: in the message dispatch path the shared context is replaced
wholesale and defaults to the empty mapping when the response omits it; in
the bootstrap path it is set verbatim from the response, becoming undefined
(not the empty mapping) when the response omits it. -/
theorem context_replacement_policy (clk : Clock) (content acc : String)
    (info : CustomerInfo) (d : ChatResponse) (s : AppState) :
    (handleSendMessage clk content (some d) s).context
      = some (d.context.getD []) ∧
    (handleLogin clk acc info (some d) s).context = d.context := by
  refine ⟨sendSome_context clk content d s, ?_⟩
  cases hm : d.messages <;> simp [handleLogin, loginPreWelcome, hm]

/-- C6: an event arriving with a timestamp retains it unchanged, an event
arriving without one is stamped with the local receipt time, and both the
dispatch and bootstrap paths process every incoming event with exactly this
stamping rule. -/
theorem event_timestamp_policy (clk : Clock) (content acc : String)
    (info : CustomerInfo) (d : ChatResponse) (s : AppState)
    (now t : Nat) (e : AgentEvent) (h : e.timestamp = some t) :
    stampEvent now e = e ∧
    (stampEvent now { e with timestamp := none }).timestamp = some now ∧
    (handleSendMessage clk content (some d) s).events
      = s.events ++ (d.events.getD []).map (stampEvent clk.nowStamp) ∧
    (handleLogin clk acc info (some d) s).events
      = (d.events.getD []).map (stampEvent clk.nowStamp) := by
  refine ⟨?_, rfl, sendSome_events clk content d s, ?_⟩
  · cases e with
    | mk ty ts ex => simp at h; simp [stampEvent, h]
  · cases hm : d.messages <;> simp [handleLogin, loginPreWelcome, hm]

/-- Witness for C6 at a concrete event carrying timestamp 5. -/
theorem event_timestamp_policy_witness :
    stampEvent 99 (AgentEvent.mk "tool_call" (some 5) "")
      = AgentEvent.mk "tool_call" (some 5) "" ∧
    (stampEvent 99
      { AgentEvent.mk "tool_call" (some 5) "" with timestamp := none }).timestamp
      = some 99 ∧
    (handleSendMessage cClock "hi" (some dEx) initialState).events
      = initialState.events
        ++ (dEx.events.getD []).map (stampEvent cClock.nowStamp) ∧
    (handleLogin cClock "CUST001" infoEx (some dEx) initialState).events
      = (dEx.events.getD []).map (stampEvent cClock.nowStamp) :=
  event_timestamp_policy cClock "hi" "CUST001" infoEx dEx initialState
    99 5 (AgentEvent.mk "tool_call" (some 5) "") rfl

/-- C7 counterexample: the transport client's `getCustomerInfo` returns the
same value (`null`) for a 404 and for any other failing status, so its
result does not distinguish "not found" from other failures. -/
theorem getCustomerInfo_no_distinction :
    getCustomerInfo (FetchResult.httpError 404) = none ∧
    getCustomerInfo (FetchResult.httpError 500) = none ∧
    getCustomerInfo (FetchResult.httpError 404)
      = getCustomerInfo (FetchResult.httpError 500) :=
  ⟨rfl, rfl, rfl⟩

/-- C7 amended: `getCustomerInfo` collapses every failure to null; the 404
distinction is made by the login component itself, which fetches the
customer endpoint directly and maps HTTP 404 to a specific not-found
message, distinct from the generic lookup-failure message. -/
theorem login_component_distinguishes_not_found (acc : String) (status : Nat)
    (hacc : jsTrim acc ≠ "") (hstatus : status ≠ 404) :
    customerLoginHandle acc (.httpError 404) = .notFound ∧
    customerLoginHandle acc (.httpError status) = .lookupFailed ∧
    loginErrorText .notFound ≠ loginErrorText .lookupFailed ∧
    getCustomerInfo (FetchResult.httpError 404) = none ∧
    getCustomerInfo (FetchResult.httpError status) = none := by
  refine ⟨?_, ?_, by decide, rfl, rfl⟩
  · simp [customerLoginHandle, hacc]
  · simp [customerLoginHandle, hacc, hstatus]

/-- Witness for C7's amended statement at account "CUST001", status 500. -/
theorem login_component_distinguishes_not_found_witness :
    customerLoginHandle "CUST001" (.httpError 404) = .notFound ∧
    customerLoginHandle "CUST001" (.httpError 500) = .lookupFailed ∧
    loginErrorText .notFound ≠ loginErrorText .lookupFailed ∧
    getCustomerInfo (FetchResult.httpError 404) = none ∧
    getCustomerInfo (FetchResult.httpError 500) = none :=
  login_component_distinguishes_not_found "CUST001" 500 (by decide) (by decide)

/-- C8 counterexample: the optimistic user message and the synthesized
system fallback message both use the bare clock string as id, so a send
whose transport fails within one millisecond mints two transcript messages
with identical ids. -/
theorem same_millisecond_ids_collide :
    ((handleSendMessage cClock "Change my seat" none initialState).messages.map
        (fun m => m.id)) = ["1000", "1000"] ∧
    ¬ ((handleSendMessage cClock "Change my seat" none initialState).messages.map
        (fun m => m.id)).Nodup := by
  refine ⟨by decide, by decide⟩

/-- C8 amended: only response-derived assistant messages combine the clock
reading with a random suffix; the user, welcome and system fallback messages
use the bare clock string as id, so two such messages minted at the same
clock reading share an id. -/
theorem message_id_forms (clk : Clock) (content : String)
    (info : CustomerInfo) (i : Nat) (m : RespMessage)
    (h : clk.nowUser = clk.nowFail) :
    (mkUserMsg clk content).id = toString clk.nowUser ∧
    (mkFailMsg clk).id = toString clk.nowFail ∧
    (welcomeMessage clk info).id = toString clk.nowWelcome ∧
    (mkRespMsg clk i m).id = toString clk.nowRespMsg ++ clk.rand i ∧
    (mkUserMsg clk content).id = (mkFailMsg clk).id := by
  refine ⟨rfl, rfl, rfl, rfl, ?_⟩
  simp [mkUserMsg, mkFailMsg, h]

/-- Witness for C8's amended statement at the same-millisecond clock. -/
theorem message_id_forms_witness :
    (mkUserMsg cClock "hi").id = toString cClock.nowUser ∧
    (mkFailMsg cClock).id = toString cClock.nowFail ∧
    (welcomeMessage cClock infoEx).id = toString cClock.nowWelcome ∧
    (mkRespMsg cClock 0 (RespMessage.mk "Hi" none)).id
      = toString cClock.nowRespMsg ++ cClock.rand 0 ∧
    (mkUserMsg cClock "hi").id = (mkFailMsg cClock).id :=
  message_id_forms cClock "hi" infoEx 0 (RespMessage.mk "Hi" none) rfl

end AirlineUI
